import Mathlib

/-!
CPU-backed CUDA stubs (`src/stubs.c`) and the kernel contract (`src/stat_calc/kernel.h`):
a shallow embedding of the two source files.

* The constants, the `KernelError` table and the batch layouts come from `kernel.h`.
* The operations come from `stubs.c`, the only definitions of the `cuda_wrapper_*`
  functions in the sources.  Every stub is embedded as a transformer of an explicit
  `World`: the state a C call can read or write (platform, heap, byte memory and the
  four batch buffers).
* C `float` values are kept abstract: the layouts are parametric in the carrier `F`
  of single-precision values, since no stub performs floating-point arithmetic.
  Concrete scenarios instantiate `F` with `ℚ`, the exact value of a finite float.
* Pointers are addresses in `Nat`, `0` being `NULL`.
-/

namespace Bolt

/-! ## Constants and the outcome table of `kernel.h` -/

/-- The symbol capacity, `#define MAX_SYMBOLS_CUDA 404`. -/
abbrev MAX_SYMBOLS_CUDA : Nat := 404

/-- The order-book depth, `#define MAX_ORDERBOOK_SIZE 5`. -/
abbrev MAX_ORDERBOOK_SIZE : Nat := 5

/-- The OHLC window, the literal `15` in `float close_prices[MAX_SYMBOLS_CUDA][15]`. -/
abbrev OHLC_WINDOW : Nat := 15

/-- The outcome shape `KernelError` of `kernel.h`: an `int code` and a
`const char* message`. -/
structure KernelError where
  code : Int
  message : String
deriving DecidableEq, Repr

def KERNEL_SUCCESS : KernelError := ⟨0, "Success"⟩
def KERNEL_ERROR_INVALID_DEVICE : KernelError := ⟨1, "Invalid device ID"⟩
def KERNEL_ERROR_NO_DEVICE : KernelError := ⟨2, "No CUDA devices found"⟩
def KERNEL_ERROR_MEMORY_ALLOCATION : KernelError := ⟨3, "Memory allocation failed"⟩
def KERNEL_ERROR_MEMORY_SET : KernelError := ⟨4, "Memory set failed"⟩
def KERNEL_ERROR_MEMORY_FREE : KernelError := ⟨5, "Memory free failed"⟩
def KERNEL_ERROR_MEMCPY : KernelError := ⟨6, "Memory copy failed"⟩
def KERNEL_ERROR_KERNEL_LAUNCH : KernelError := ⟨7, "Kernel launch failed"⟩
def KERNEL_ERROR_KERNEL_EXECUTION : KernelError := ⟨8, "Kernel execution failed"⟩
def KERNEL_ERROR_DEVICE_RESET : KernelError := ⟨9, "Device reset failed"⟩
def KERNEL_ERROR_GET_PROPERTIES : KernelError := ⟨10, "Failed to get device properties"⟩
def KERNEL_ERROR_GET_DEVICE_COUNT : KernelError := ⟨11, "Failed to get device count"⟩

/-- The outcome table: every `static const KernelError` of `kernel.h`, in source order. -/
def kernelErrorTable : List KernelError :=
  [KERNEL_SUCCESS, KERNEL_ERROR_INVALID_DEVICE, KERNEL_ERROR_NO_DEVICE,
   KERNEL_ERROR_MEMORY_ALLOCATION, KERNEL_ERROR_MEMORY_SET, KERNEL_ERROR_MEMORY_FREE,
   KERNEL_ERROR_MEMCPY, KERNEL_ERROR_KERNEL_LAUNCH, KERNEL_ERROR_KERNEL_EXECUTION,
   KERNEL_ERROR_DEVICE_RESET, KERNEL_ERROR_GET_PROPERTIES, KERNEL_ERROR_GET_DEVICE_COUNT]

/-! ## Batch layouts of `kernel.h` -/

/-- The layout `struct GPUOHLCDataBatch_C`: per slot fifteen closes and a live count
(`unsigned int`). -/
structure GPUOHLCDataBatch_C (F : Type) where
  close_prices : Fin MAX_SYMBOLS_CUDA → Fin OHLC_WINDOW → F
  counts : Fin MAX_SYMBOLS_CUDA → Nat

/-- The layout `struct GPUPercentageChangeResultBatch_C`; `candle_timestamp` is a
`long long`. -/
structure GPUPercentageChangeResultBatch_C (F : Type) where
  percentage_change : Fin MAX_SYMBOLS_CUDA → F
  current_price : Fin MAX_SYMBOLS_CUDA → F
  candle_open_price : Fin MAX_SYMBOLS_CUDA → F
  candle_timestamp : Fin MAX_SYMBOLS_CUDA → Int

/-! ## The state a stub call runs in -/

/-- Everything a call of a stub can observe or change.

* `device_count`: how many CUDA devices the platform enumerates;
* `live`: the addresses of the outstanding `malloc` blocks;
* `mem`: byte memory, by address (the `char` buffers of the caller);
* `d_ohlc_batch`, `d_pct_result`: contents of the two device-side buffers;
* `h_ohlc_batch`, `h_pct_results`: contents of the two host-side batches. -/
structure World (F : Type) where
  device_count : Nat
  live : Finset Nat
  mem : Nat → Nat
  d_ohlc_batch : GPUOHLCDataBatch_C F
  d_pct_result : GPUPercentageChangeResultBatch_C F
  h_ohlc_batch : GPUOHLCDataBatch_C F
  h_pct_results : GPUPercentageChangeResultBatch_C F

/-! ## C library functions used by the stubs -/

/-- A single byte store `*(char*)a = v`. -/
def store (mem : Nat → Nat) (a v : Nat) : Nat → Nat :=
  fun x => if x = a then v else mem x

/-- C `strncpy(dst, src, n)`, where `src` lists the bytes of the source string before
its terminating NUL.  At most `n` bytes are written: the bytes of `src` while they
last, NUL bytes once the source is exhausted. -/
def strncpy : List Nat → Nat → Nat → (Nat → Nat) → (Nat → Nat)
  | _, 0, _, mem => mem
  | [], n + 1, dst, mem => strncpy [] n (dst + 1) (store mem dst 0)
  | c :: cs, n + 1, dst, mem => strncpy cs n (dst + 1) (store mem dst c)

/-- C `malloc(bytes)` answering `r`: `NULL` (`r = 0`) on failure, which changes
nothing, otherwise the address of a block that becomes outstanding. -/
def malloc {F : Type} (w : World F) (_bytes : Nat) (r : Nat) : Nat × World F :=
  if r = 0 then (0, w) else (r, { w with live := insert r w.live })

/-- What `malloc` may answer in `w`: `NULL`, or a block that is not outstanding. -/
def MallocAnswer {F : Type} (w : World F) (r : Nat) : Prop :=
  r = 0 ∨ r ∉ w.live

instance decidableMallocAnswer {F : Type} (w : World F) (r : Nat) :
    Decidable (MallocAnswer w r) := by
  unfold MallocAnswer; infer_instance

/-- C `free(p)`: nothing for `NULL`; an outstanding block stops being outstanding;
any other pointer is undefined behaviour (`none`). -/
def free {F : Type} (w : World F) (p : Nat) : Option (World F) :=
  if p = 0 then some w
  else if p ∈ w.live then some { w with live := w.live.erase p }
  else none

/-! ## The stubs of `stubs.c` -/

/-- The literal `"Stub CUDA (CPU), CC=0.0, RAM=0 MB"` of `cuda_wrapper_get_device_info`. -/
def stub_info : String := "Stub CUDA (CPU), CC=0.0, RAM=0 MB"

/-- The bytes of `stub_info` (ASCII), without the terminating NUL. -/
def stub_info_bytes : List Nat := stub_info.toList.map Char.toNat

/-- The stub `int cuda_wrapper_select_best_device(void)`: `return 0;`, commented
`device 0 "selected"`. -/
def cuda_wrapper_select_best_device {F : Type} (w : World F) : Int × World F :=
  (0, w)

/-- The stub `int cuda_wrapper_init_device(int device_id)`: `(void)device_id; return 0;`. -/
def cuda_wrapper_init_device {F : Type} (w : World F) (_device_id : Int) : Int × World F :=
  (0, w)

/-- The stub `int cuda_wrapper_get_device_info(char* buf, int len)`: when
`buf && len > 0`, `strncpy(buf, info, (size_t)len - 1); buf[len - 1] = 0;`; then
`return 0;`. -/
def cuda_wrapper_get_device_info {F : Type} (w : World F) (buf : Nat) (len : Int) :
    Int × World F :=
  if buf ≠ 0 ∧ len > 0 then
    let m1 := strncpy stub_info_bytes (len.toNat - 1) buf w.mem
    let m2 := store m1 (buf + (len.toNat - 1)) 0
    (0, { w with mem := m2 })
  else
    (0, w)

/-- The stub `void* cuda_wrapper_allocate_memory(size_t bytes)`:
`if (bytes == 0) return NULL; void* p = malloc(bytes); return p;`
The argument `r` is the answer of the C library to the `malloc` call. -/
def cuda_wrapper_allocate_memory {F : Type} (w : World F) (bytes : Nat) (r : Nat) :
    Nat × World F :=
  if bytes = 0 then (0, w) else malloc w bytes r

/-- The stub `int cuda_wrapper_run_percentage_change_batch(void)`: `return 0;`, commented
`no-op; pretend kernel ran OK`.
Callers pass the arguments of the declaration in `kernel.h` (the two device handles,
the host batches, which live in the `World`, and `num_symbols`); the stub reads none. -/
def cuda_wrapper_run_percentage_change_batch {F : Type} (w : World F)
    (_d_ohlc_batch_ptr _d_pct_results_ptr : Nat) (_num_symbols : Int) : Int × World F :=
  (0, w)

/-- The stub `void cuda_wrapper_free_memory(void* p)`: `if (p) free(p);`. -/
def cuda_wrapper_free_memory {F : Type} (w : World F) (p : Nat) : Option (World F) :=
  if p ≠ 0 then free w p else some w

/-- The stub `void cuda_wrapper_reset_device(void)`, a no-op. -/
def cuda_wrapper_reset_device {F : Type} (w : World F) : World F :=
  w

/-- The stub `int analyze_trading_signals_with_liquidity_simd(void)`: `return 0;`. -/
def analyze_trading_signals_with_liquidity_simd {F : Type} (w : World F) : Int × World F :=
  (0, w)

/-! ## Derived observations -/

/-- The `n` bytes found at `buf[0]`, ..., `buf[n-1]`. -/
def bytes_at (mem : Nat → Nat) (buf n : Nat) : List Nat :=
  (List.range n).map (fun j => mem (buf + j))

/-- Calling `cuda_wrapper_free_memory(NULL)` `n` times in a row; `none` as soon as one
call has undefined behaviour. -/
def free_null_repeat {F : Type} : Nat → World F → Option (World F)
  | 0, w => some w
  | n + 1, w => (cuda_wrapper_free_memory w 0).bind (free_null_repeat n)

/-- One allocate/release cycle: `p = cuda_wrapper_allocate_memory(bytes)` immediately
followed by `cuda_wrapper_free_memory(p)`.  Yields the handle that was returned and
the state after the release. -/
def allocate_release_cycle {F : Type} (w : World F) (bytes r : Nat) :
    Option (Nat × World F) :=
  (cuda_wrapper_free_memory (cuda_wrapper_allocate_memory w bytes r).2
      (cuda_wrapper_allocate_memory w bytes r).1).map
    (fun w2 => ((cuda_wrapper_allocate_memory w bytes r).1, w2))

/-- An allocate/release cycle succeeded: the allocation returned a handle (a `void*`
allocator signals failure by `NULL` only) and the release was well defined. -/
def CycleSucceeds {F : Type} (w : World F) (bytes r : Nat) : Prop :=
  (cuda_wrapper_allocate_memory w bytes r).1 ≠ 0 ∧
    (allocate_release_cycle w bytes r).isSome = true

/-- A device id outside the enumerated range `0 .. device_count - 1`. -/
def OutOfRange {F : Type} (w : World F) (device_id : Int) : Prop :=
  device_id < 0 ∨ (w.device_count : Int) ≤ device_id

/-- Row `i` of a result batch is the all-zero sentinel. -/
def IsSentinelRow {F : Type} [Zero F] (res : GPUPercentageChangeResultBatch_C F)
    (i : Fin MAX_SYMBOLS_CUDA) : Prop :=
  res.percentage_change i = 0 ∧ res.current_price i = 0 ∧
    res.candle_open_price i = 0 ∧ res.candle_timestamp i = 0

/-- The value the contract prescribes for `percentage_change`, on exact values:
`(latest_close - reference_close) / reference_close * 100`. -/
def percentage_change_formula (latest_close reference_close : ℚ) : ℚ :=
  (latest_close - reference_close) / reference_close * 100

/-! ## Concrete scenarios -/

/-- An OHLC batch holding zeros only. -/
def zeroOHLC : GPUOHLCDataBatch_C ℚ :=
  { close_prices := fun _ _ => 0, counts := fun _ => 0 }

/-- A zero-initialised result batch. -/
def zeroResult : GPUPercentageChangeResultBatch_C ℚ :=
  { percentage_change := fun _ => 0, current_price := fun _ => 0,
    candle_open_price := fun _ => 0, candle_timestamp := fun _ => 0 }

/-- Slot 0 holds the closes 100, 105, 110 with count 3; every other slot has count 0. -/
def scenarioOHLC : GPUOHLCDataBatch_C ℚ :=
  { close_prices := fun i j =>
      if i.val = 0 then
        (if j.val = 0 then 100 else if j.val = 1 then 105 else if j.val = 2 then 110 else 0)
      else 0
    counts := fun i => if i.val = 0 then 3 else 0 }

/-- Every slot has count 0 while the unused window entries hold the value 7. -/
def garbageOHLC : GPUOHLCDataBatch_C ℚ :=
  { close_prices := fun _ _ => 7, counts := fun _ => 0 }

/-- A result batch left over from an earlier computation: every row is
`(10, 110, 100, 1700000000)`. -/
def staleResult : GPUPercentageChangeResultBatch_C ℚ :=
  { percentage_change := fun _ => 10, current_price := fun _ => 110,
    candle_open_price := fun _ => 100, candle_timestamp := fun _ => 1700000000 }

/-- No device, nothing allocated, every byte `0xFF`, zeroed batches. -/
def emptyWorld : World ℚ :=
  { device_count := 0, live := ∅, mem := fun _ => 255,
    d_ohlc_batch := zeroOHLC, d_pct_result := zeroResult,
    h_ohlc_batch := zeroOHLC, h_pct_results := zeroResult }

/-- One device, the two device buffers allocated at 4096 and 8192, the scenario batch
on the host and a zero-initialised host result batch. -/
def scenarioWorld : World ℚ :=
  { device_count := 1, live := {4096, 8192}, mem := fun _ => 0,
    d_ohlc_batch := zeroOHLC, d_pct_result := zeroResult,
    h_ohlc_batch := scenarioOHLC, h_pct_results := zeroResult }

/-- As `scenarioWorld`, with counts 0 everywhere and a stale host result batch. -/
def staleWorld : World ℚ :=
  { device_count := 1, live := {4096, 8192}, mem := fun _ => 0,
    d_ohlc_batch := zeroOHLC, d_pct_result := zeroResult,
    h_ohlc_batch := garbageOHLC, h_pct_results := staleResult }

/-- The same buffers as `scenarioWorld` on another platform and another heap. -/
def scenarioWorldElsewhere : World ℚ :=
  { device_count := 3, live := {12288, 16384, 20480}, mem := fun _ => 255,
    d_ohlc_batch := zeroOHLC, d_pct_result := zeroResult,
    h_ohlc_batch := scenarioOHLC, h_pct_results := zeroResult }

/-! ## Shared lemmas -/

/-- The run stub returns 0 and changes nothing. -/
theorem run_noop {F : Type} (w : World F) (p q : Nat) (n : Int) :
    cuda_wrapper_run_percentage_change_batch w p q n = (0, w) := rfl

/-- Closed form of `strncpy`: inside the `n` bytes at `dst` the byte of the source, or
NUL past its end; outside, the old memory. -/
theorem strncpy_apply (src : List Nat) (n dst : Nat) (mem : Nat → Nat) (a : Nat) :
    strncpy src n dst mem a =
      if dst ≤ a ∧ a < dst + n then src.getD (a - dst) 0 else mem a := by
  induction n generalizing src dst mem with
  | zero =>
    have h : ¬ (dst ≤ a ∧ a < dst + 0) := by omega
    cases src <;> simp only [strncpy, h, if_false]
  | succ n ih =>
    cases src with
    | nil =>
      simp only [strncpy, ih, store]
      by_cases h1 : dst + 1 ≤ a ∧ a < dst + 1 + n
      · have h2 : dst ≤ a ∧ a < dst + (n + 1) := by omega
        simp [h1, h2]
      · by_cases h3 : a = dst
        · subst h3; simp
        · have h2 : ¬ (dst ≤ a ∧ a < dst + (n + 1)) := by omega
          simp [h1, h2, h3]
    | cons c cs =>
      simp only [strncpy, ih, store]
      by_cases h1 : dst + 1 ≤ a ∧ a < dst + 1 + n
      · have h2 : dst ≤ a ∧ a < dst + (n + 1) := by omega
        have h4 : a - dst = (a - (dst + 1)) + 1 := by omega
        simp [h1, h2, h4]
      · by_cases h3 : a = dst
        · subst h3; simp
        · have h2 : ¬ (dst ≤ a ∧ a < dst + (n + 1)) := by omega
          simp [h1, h2, h3]

/-- The literal has 33 bytes. -/
theorem stub_info_bytes_length : stub_info_bytes.length = 33 := by decide

/-- Memory after a guarded call of the device-info stub, byte by byte. -/
theorem get_device_info_mem {F : Type} (w : World F) (buf : Nat) (len : Int)
    (hb : buf ≠ 0) (hl : 0 < len) (a : Nat) :
    (cuda_wrapper_get_device_info w buf len).2.mem a =
      if buf ≤ a ∧ a < buf + len.toNat then
        (if a - buf < len.toNat - 1 then stub_info_bytes.getD (a - buf) 0 else 0)
      else w.mem a := by
  have hn : 0 < len.toNat := by omega
  have hc : buf ≠ 0 ∧ len > 0 := ⟨hb, hl⟩
  have e : cuda_wrapper_get_device_info w buf len =
      (0, { w with mem := store (strncpy stub_info_bytes (len.toNat - 1) buf w.mem)
                            (buf + (len.toNat - 1)) 0 }) := by
    unfold cuda_wrapper_get_device_info
    rw [if_pos hc]
  rw [e]
  simp only [store, strncpy_apply]
  by_cases h1 : a = buf + (len.toNat - 1)
  · have h2 : buf ≤ a ∧ a < buf + len.toNat := by omega
    have h3 : ¬ (a - buf < len.toNat - 1) := by omega
    rw [if_pos h1, if_pos h2, if_neg h3]
  · by_cases h2 : buf ≤ a ∧ a < buf + (len.toNat - 1)
    · have h3 : buf ≤ a ∧ a < buf + len.toNat := by omega
      have h4 : a - buf < len.toNat - 1 := by omega
      rw [if_neg h1, if_pos h2, if_pos h3, if_pos h4]
    · have h3 : ¬ (buf ≤ a ∧ a < buf + len.toNat) := by omega
      rw [if_neg h1, if_neg h2, if_neg h3]

/-- Bytes that agree with the literal pointwise form its leading segment. -/
theorem bytes_at_info (mem : Nat → Nat) (buf m : Nat) (hm : m ≤ 33)
    (h : ∀ j, j < m → mem (buf + j) = stub_info_bytes.getD j 0) :
    bytes_at mem buf m = stub_info_bytes.take m := by
  have hlen : stub_info_bytes.length = 33 := stub_info_bytes_length
  apply List.ext_getElem
  · simp [bytes_at, hlen, hm]
  · intro j h1 h2
    have hj : j < m := by simpa [bytes_at] using h1
    have hj2 : j < stub_info_bytes.length := by omega
    simp [bytes_at, h j hj, List.getElem?_eq_getElem hj2]

/-- Releasing `NULL` through the stub changes nothing. -/
theorem free_memory_null {F : Type} (w : World F) : cuda_wrapper_free_memory w 0 = some w := by
  simp [cuda_wrapper_free_memory]

/-- Any number of releases of `NULL` changes nothing. -/
theorem free_null_repeat_eq {F : Type} (n : Nat) (w : World F) :
    free_null_repeat n w = some w := by
  induction n with
  | zero => rfl
  | succ n ih => simp [free_null_repeat, free_memory_null, ih]

/-- An allocate/release cycle ends in the state it started from and returns `NULL`
for a zero size, else the answer of `malloc`. -/
theorem allocate_release_cycle_eq {F : Type} (w : World F) (bytes r : Nat)
    (hr : MallocAnswer w r) :
    allocate_release_cycle w bytes r = some (if bytes = 0 then 0 else r, w) := by
  unfold allocate_release_cycle cuda_wrapper_allocate_memory
  by_cases hb : bytes = 0
  · simp [hb, cuda_wrapper_free_memory]
  · by_cases h0 : r = 0
    · simp [hb, h0, malloc, cuda_wrapper_free_memory]
    · have hfresh : r ∉ w.live := by
        rcases hr with h | h
        · exact absurd h h0
        · exact h
      simp [hb, h0, malloc, cuda_wrapper_free_memory, free, Finset.erase_insert hfresh]

/-- The handle returned by the allocation stub. -/
theorem allocate_memory_handle {F : Type} (w : World F) (bytes r : Nat) :
    (cuda_wrapper_allocate_memory w bytes r).1 = if bytes = 0 then 0 else r := by
  unfold cuda_wrapper_allocate_memory malloc
  by_cases hb : bytes = 0
  · simp [hb]
  · by_cases h0 : r = 0
    · simp [hb, h0]
    · simp [hb, h0]

/-! ## The claims -/

/-- C1, as the stub behaves: for every host OHLC batch, every `num_symbols <= 404` and
every slot `i < num_symbols` whose `counts[i] = k` with `1 <= k <= 15`, the call returns
the success code 0 and leaves the row untouched: `percentage_change[i]`,
`current_price[i]` and `candle_open_price[i]` of the host result batch keep the values
they held before the call (nothing is computed from `close_prices`). -/
theorem C1_run_keeps_result_row {F : Type} (w : World F) (p q : Nat) (num_symbols : Int)
    (i : Fin MAX_SYMBOLS_CUDA) (k : Nat)
    (_hn : num_symbols ≤ MAX_SYMBOLS_CUDA) (_hi : (i.val : Int) < num_symbols)
    (_hk : w.h_ohlc_batch.counts i = k) (_h1 : 1 ≤ k) (_h15 : k ≤ OHLC_WINDOW) :
    (cuda_wrapper_run_percentage_change_batch w p q num_symbols).1 = 0 ∧
    (cuda_wrapper_run_percentage_change_batch w p q num_symbols).2.h_pct_results.percentage_change i
      = w.h_pct_results.percentage_change i ∧
    (cuda_wrapper_run_percentage_change_batch w p q num_symbols).2.h_pct_results.current_price i
      = w.h_pct_results.current_price i ∧
    (cuda_wrapper_run_percentage_change_batch w p q num_symbols).2.h_pct_results.candle_open_price i
      = w.h_pct_results.candle_open_price i := by
  rw [run_noop]
  exact ⟨rfl, rfl, rfl, rfl⟩

/-- C1 at the scenario: closes 100, 105, 110 with count 3 and a zero-initialised result
batch; the row stays `(0, 0, 0)`. -/
theorem C1_run_keeps_result_row_witness :
    ((4 : Int) ≤ MAX_SYMBOLS_CUDA ∧ (((0 : Fin MAX_SYMBOLS_CUDA).val : Nat) : Int) < 4 ∧
      scenarioWorld.h_ohlc_batch.counts 0 = 3 ∧ 1 ≤ 3 ∧ 3 ≤ OHLC_WINDOW) ∧
    (cuda_wrapper_run_percentage_change_batch scenarioWorld 4096 8192 4).1 = 0 ∧
    (cuda_wrapper_run_percentage_change_batch scenarioWorld 4096 8192 4).2.h_pct_results.percentage_change 0
      = scenarioWorld.h_pct_results.percentage_change 0 ∧
    (cuda_wrapper_run_percentage_change_batch scenarioWorld 4096 8192 4).2.h_pct_results.current_price 0
      = scenarioWorld.h_pct_results.current_price 0 ∧
    (cuda_wrapper_run_percentage_change_batch scenarioWorld 4096 8192 4).2.h_pct_results.candle_open_price 0
      = scenarioWorld.h_pct_results.candle_open_price 0 :=
  ⟨⟨by decide, by decide, by decide, by decide, by decide⟩,
    C1_run_keeps_result_row scenarioWorld 4096 8192 4 0 3
      (by decide) (by decide) (by decide) (by decide) (by decide)⟩

/-- C1 refuted as stated: in the scenario (closes 100, 105, 110, count 3, four symbols,
zero-initialised result batch) the call returns success, the contract value of
`percentage_change[0]` is 10, yet the row after the call holds 0 for
`percentage_change`, `current_price` and `candle_open_price`, not 10, 110 and 100. -/
theorem C1_counterexample :
    ((4 : Int) ≤ MAX_SYMBOLS_CUDA ∧ (((0 : Fin MAX_SYMBOLS_CUDA).val : Nat) : Int) < 4 ∧
      scenarioWorld.h_ohlc_batch.counts 0 = 3) ∧
    (cuda_wrapper_run_percentage_change_batch scenarioWorld 4096 8192 4).1 = 0 ∧
    percentage_change_formula (scenarioWorld.h_ohlc_batch.close_prices 0 2)
      (scenarioWorld.h_ohlc_batch.close_prices 0 0) = 10 ∧
    (cuda_wrapper_run_percentage_change_batch scenarioWorld 4096 8192 4).2.h_pct_results.percentage_change 0
      ≠ percentage_change_formula (scenarioWorld.h_ohlc_batch.close_prices 0 2)
          (scenarioWorld.h_ohlc_batch.close_prices 0 0) ∧
    (cuda_wrapper_run_percentage_change_batch scenarioWorld 4096 8192 4).2.h_pct_results.current_price 0
      ≠ scenarioWorld.h_ohlc_batch.close_prices 0 2 ∧
    (cuda_wrapper_run_percentage_change_batch scenarioWorld 4096 8192 4).2.h_pct_results.candle_open_price 0
      ≠ scenarioWorld.h_ohlc_batch.close_prices 0 0 := by
  have c2 : scenarioWorld.h_ohlc_batch.close_prices 0 2 = 110 := by
    simp [scenarioWorld, scenarioOHLC]
  have c0 : scenarioWorld.h_ohlc_batch.close_prices 0 0 = 100 := by
    simp [scenarioWorld, scenarioOHLC]
  rw [run_noop, c2, c0]
  refine ⟨⟨by decide, by decide, by decide⟩, rfl, ?_, ?_, ?_, ?_⟩
  · norm_num [percentage_change_formula]
  · norm_num [percentage_change_formula, scenarioWorld, zeroResult]
  · norm_num [scenarioWorld, zeroResult]
  · norm_num [scenarioWorld, zeroResult]

/-- C2, as the stub behaves: for every host OHLC batch, every `num_symbols <= 404` and
every slot `i < num_symbols` with `counts[i] = 0`, the call returns success and result
row `i` is what the result batch held before the call, whatever `close_prices[i]`
holds; so the row is the all-zero sentinel exactly when it was so before the call. -/
theorem C2_run_keeps_zero_count_row {F : Type} [Zero F] (w : World F) (p q : Nat)
    (num_symbols : Int) (i : Fin MAX_SYMBOLS_CUDA)
    (_hn : num_symbols ≤ MAX_SYMBOLS_CUDA) (_hi : (i.val : Int) < num_symbols)
    (_h0 : w.h_ohlc_batch.counts i = 0) :
    (cuda_wrapper_run_percentage_change_batch w p q num_symbols).1 = 0 ∧
    (cuda_wrapper_run_percentage_change_batch w p q num_symbols).2.h_pct_results.percentage_change i
      = w.h_pct_results.percentage_change i ∧
    (cuda_wrapper_run_percentage_change_batch w p q num_symbols).2.h_pct_results.current_price i
      = w.h_pct_results.current_price i ∧
    (cuda_wrapper_run_percentage_change_batch w p q num_symbols).2.h_pct_results.candle_open_price i
      = w.h_pct_results.candle_open_price i ∧
    (cuda_wrapper_run_percentage_change_batch w p q num_symbols).2.h_pct_results.candle_timestamp i
      = w.h_pct_results.candle_timestamp i ∧
    (IsSentinelRow (cuda_wrapper_run_percentage_change_batch w p q num_symbols).2.h_pct_results i
      ↔ IsSentinelRow w.h_pct_results i) := by
  rw [run_noop]
  exact ⟨rfl, rfl, rfl, rfl, rfl, Iff.rfl⟩

/-- C2 at a stale result batch: slot 0 has count 0 and its row stays
`(10, 110, 100, 1700000000)`. -/
theorem C2_run_keeps_zero_count_row_witness :
    ((4 : Int) ≤ MAX_SYMBOLS_CUDA ∧ (((0 : Fin MAX_SYMBOLS_CUDA).val : Nat) : Int) < 4 ∧
      staleWorld.h_ohlc_batch.counts 0 = 0) ∧
    (cuda_wrapper_run_percentage_change_batch staleWorld 4096 8192 4).1 = 0 ∧
    (cuda_wrapper_run_percentage_change_batch staleWorld 4096 8192 4).2.h_pct_results.percentage_change 0
      = staleWorld.h_pct_results.percentage_change 0 ∧
    (cuda_wrapper_run_percentage_change_batch staleWorld 4096 8192 4).2.h_pct_results.current_price 0
      = staleWorld.h_pct_results.current_price 0 ∧
    (cuda_wrapper_run_percentage_change_batch staleWorld 4096 8192 4).2.h_pct_results.candle_open_price 0
      = staleWorld.h_pct_results.candle_open_price 0 ∧
    (cuda_wrapper_run_percentage_change_batch staleWorld 4096 8192 4).2.h_pct_results.candle_timestamp 0
      = staleWorld.h_pct_results.candle_timestamp 0 ∧
    (IsSentinelRow (cuda_wrapper_run_percentage_change_batch staleWorld 4096 8192 4).2.h_pct_results 0
      ↔ IsSentinelRow staleWorld.h_pct_results 0) :=
  ⟨⟨by decide, by decide, by decide⟩,
    C2_run_keeps_zero_count_row staleWorld 4096 8192 4 0 (by decide) (by decide) (by decide)⟩

/-- C2 refuted as stated: with `counts[0] = 0` and a result batch that held
`(10, 110, 100, 1700000000)` in row 0 before the call, the call returns success and
row 0 still holds those values: it is not the all-zero sentinel. -/
theorem C2_counterexample :
    ((4 : Int) ≤ MAX_SYMBOLS_CUDA ∧ (((0 : Fin MAX_SYMBOLS_CUDA).val : Nat) : Int) < 4 ∧
      staleWorld.h_ohlc_batch.counts 0 = 0) ∧
    (cuda_wrapper_run_percentage_change_batch staleWorld 4096 8192 4).1 = 0 ∧
    (cuda_wrapper_run_percentage_change_batch staleWorld 4096 8192 4).2.h_pct_results.percentage_change 0
      = 10 ∧
    (cuda_wrapper_run_percentage_change_batch staleWorld 4096 8192 4).2.h_pct_results.candle_timestamp 0
      = 1700000000 ∧
    ¬ IsSentinelRow
        (cuda_wrapper_run_percentage_change_batch staleWorld 4096 8192 4).2.h_pct_results 0 := by
  rw [run_noop]
  refine ⟨⟨by decide, by decide, by decide⟩, rfl, rfl, rfl, ?_⟩
  intro h
  have h4 : staleWorld.h_pct_results.candle_timestamp 0 = 0 := h.2.2.2
  revert h4
  decide

/-- C3, as the stub behaves: for every call with `num_symbols > MAX_SYMBOLS_CUDA` (404)
the returned code is 0, the success code (no capacity check is made), and the device
OHLC buffer and the device result buffer are left unchanged. -/
theorem C3_run_over_capacity {F : Type} (w : World F) (p q : Nat) (num_symbols : Int)
    (_hn : (MAX_SYMBOLS_CUDA : Int) < num_symbols) :
    (cuda_wrapper_run_percentage_change_batch w p q num_symbols).1 = KERNEL_SUCCESS.code ∧
    (cuda_wrapper_run_percentage_change_batch w p q num_symbols).2.d_ohlc_batch = w.d_ohlc_batch ∧
    (cuda_wrapper_run_percentage_change_batch w p q num_symbols).2.d_pct_result = w.d_pct_result := by
  rw [run_noop]
  exact ⟨rfl, rfl, rfl⟩

/-- C3 at `num_symbols = 405`. -/
theorem C3_run_over_capacity_witness :
    (MAX_SYMBOLS_CUDA : Int) < 405 ∧
    (cuda_wrapper_run_percentage_change_batch scenarioWorld 4096 8192 405).1
      = KERNEL_SUCCESS.code ∧
    (cuda_wrapper_run_percentage_change_batch scenarioWorld 4096 8192 405).2.d_ohlc_batch
      = scenarioWorld.d_ohlc_batch ∧
    (cuda_wrapper_run_percentage_change_batch scenarioWorld 4096 8192 405).2.d_pct_result
      = scenarioWorld.d_pct_result :=
  ⟨by decide, C3_run_over_capacity scenarioWorld 4096 8192 405 (by decide)⟩

/-- C3 refuted as stated: with `num_symbols = 405 > 404` the returned code is 0, so it
is not non-zero. -/
theorem C3_counterexample :
    (MAX_SYMBOLS_CUDA : Int) < 405 ∧
    (cuda_wrapper_run_percentage_change_batch scenarioWorld 4096 8192 405).1 = 0 ∧
    ¬ ((cuda_wrapper_run_percentage_change_batch scenarioWorld 4096 8192 405).1 ≠ 0) := by
  rw [run_noop]
  decide

/-- C4: the outcome table of `kernel.h` consists of exactly twelve `KernelError`
constants with the codes 0 to 11; `KERNEL_SUCCESS` is the only one with code 0; the
codes of any two different constants differ and so do their messages, hence within the
table equal codes go with equal messages and conversely. -/
theorem C4_outcome_table :
    kernelErrorTable.length = 12 ∧
    kernelErrorTable.Nodup ∧
    kernelErrorTable.map KernelError.code = [0, 1, 2, 3, 4, 5, 6, 7, 8, 9, 10, 11] ∧
    (∀ e ∈ kernelErrorTable, e.code = 0 ↔ e = KERNEL_SUCCESS) ∧
    (∀ a ∈ kernelErrorTable, ∀ b ∈ kernelErrorTable, a ≠ b → a.code ≠ b.code) ∧
    (∀ a ∈ kernelErrorTable, ∀ b ∈ kernelErrorTable, a ≠ b → a.message ≠ b.message) ∧
    (∀ a ∈ kernelErrorTable, ∀ b ∈ kernelErrorTable, a.code = b.code ↔ a.message = b.message) := by
  decide

/-- C5, as the stub behaves: for every `device_id` outside the enumerated device range,
negative ones included, `cuda_wrapper_init_device(device_id)` returns 0, the success
code, not code 1 of the InvalidDevice outcome, and changes nothing. -/
theorem C5_init_device_out_of_range {F : Type} (w : World F) (device_id : Int)
    (_h : OutOfRange w device_id) :
    (cuda_wrapper_init_device w device_id).1 = KERNEL_SUCCESS.code ∧
    (cuda_wrapper_init_device w device_id).1 ≠ KERNEL_ERROR_INVALID_DEVICE.code ∧
    (cuda_wrapper_init_device w device_id).2 = w := by
  refine ⟨rfl, ?_, rfl⟩
  show (0 : Int) ≠ KERNEL_ERROR_INVALID_DEVICE.code
  decide

/-- C5 at `device_id = -1` on a platform without devices. -/
theorem C5_init_device_out_of_range_witness :
    OutOfRange emptyWorld (-1) ∧
    (cuda_wrapper_init_device emptyWorld (-1)).1 = KERNEL_SUCCESS.code ∧
    (cuda_wrapper_init_device emptyWorld (-1)).1 ≠ KERNEL_ERROR_INVALID_DEVICE.code ∧
    (cuda_wrapper_init_device emptyWorld (-1)).2 = emptyWorld :=
  ⟨Or.inl (by decide), C5_init_device_out_of_range emptyWorld (-1) (Or.inl (by decide))⟩

/-- C5 refuted as stated: `device_id = -1` is out of range, yet the call returns 0 and
not the InvalidDevice code 1. -/
theorem C5_counterexample :
    OutOfRange emptyWorld (-1) ∧
    (cuda_wrapper_init_device emptyWorld (-1)).1 = 0 ∧
    ¬ ((cuda_wrapper_init_device emptyWorld (-1)).1 = KERNEL_ERROR_INVALID_DEVICE.code) :=
  ⟨Or.inl (by decide), rfl, by decide⟩

/-- C6, as the stub behaves: whenever the platform enumerates zero devices,
`cuda_wrapper_select_best_device` returns 0, that is device id 0 is reported as
selected, not code 2 of the NoDeviceFound outcome, and nothing changes. -/
theorem C6_select_best_without_devices {F : Type} (w : World F)
    (_h : w.device_count = 0) :
    (cuda_wrapper_select_best_device w).1 = 0 ∧
    (cuda_wrapper_select_best_device w).1 ≠ KERNEL_ERROR_NO_DEVICE.code ∧
    (cuda_wrapper_select_best_device w).2 = w := by
  refine ⟨rfl, ?_, rfl⟩
  show (0 : Int) ≠ KERNEL_ERROR_NO_DEVICE.code
  decide

/-- C6 on a platform without devices. -/
theorem C6_select_best_without_devices_witness :
    emptyWorld.device_count = 0 ∧
    (cuda_wrapper_select_best_device emptyWorld).1 = 0 ∧
    (cuda_wrapper_select_best_device emptyWorld).1 ≠ KERNEL_ERROR_NO_DEVICE.code ∧
    (cuda_wrapper_select_best_device emptyWorld).2 = emptyWorld :=
  ⟨rfl, C6_select_best_without_devices emptyWorld rfl⟩

/-- C6 refuted as stated: with zero devices enumerated the call yields the default
device id 0 and not the NoDeviceFound code 2. -/
theorem C6_counterexample :
    emptyWorld.device_count = 0 ∧
    (cuda_wrapper_select_best_device emptyWorld).1 = 0 ∧
    ¬ ((cuda_wrapper_select_best_device emptyWorld).1 = KERNEL_ERROR_NO_DEVICE.code) :=
  ⟨rfl, rfl, by decide⟩

/-- C7: releasing a null handle with `cuda_wrapper_free_memory` is a no-op success: in
every allocation state the call is well defined (no failure), leaves the set of
outstanding allocations, indeed the whole state, unchanged, and any number of such
calls in a row has the same effect as a single one. -/
theorem C7_free_null_is_noop {F : Type} (w : World F) :
    cuda_wrapper_free_memory w 0 = some w ∧
    (cuda_wrapper_free_memory w 0).map World.live = some w.live ∧
    (∀ n : Nat, free_null_repeat n w = some w) ∧
    (∀ n : Nat, free_null_repeat (n + 1) w = free_null_repeat 1 w) := by
  refine ⟨free_memory_null w, ?_, fun n => free_null_repeat_eq n w, ?_⟩
  · rw [free_memory_null]; rfl
  · intro n
    rw [free_null_repeat_eq, free_null_repeat_eq]

/-- C8, as the stub behaves: for every allocation state, every size and every answer
of `malloc`, `cuda_wrapper_allocate_memory` immediately followed by
`cuda_wrapper_free_memory` on the returned handle is well defined and restores the set
of outstanding allocations (indeed the whole state) to what it was before, so that a
second allocate/release cycle behaves identically; the cycle succeeds, that is the
allocation returns a non-null handle, exactly when `bytes > 0` and `malloc` does not
fail (otherwise the handle is `NULL` and its release is a no-op). -/
theorem C8_allocate_release_restores {F : Type} (w : World F) (bytes r : Nat)
    (hr : MallocAnswer w r) :
    allocate_release_cycle w bytes r
      = some ((cuda_wrapper_allocate_memory w bytes r).1, w) ∧
    (allocate_release_cycle w bytes r).map (fun x => x.2.live) = some w.live ∧
    (allocate_release_cycle w bytes r).bind (fun x => allocate_release_cycle x.2 bytes r)
      = allocate_release_cycle w bytes r ∧
    (CycleSucceeds w bytes r ↔ (bytes ≠ 0 ∧ r ≠ 0)) := by
  have e : allocate_release_cycle w bytes r
      = some ((cuda_wrapper_allocate_memory w bytes r).1, w) := by
    rw [allocate_release_cycle_eq w bytes r hr, allocate_memory_handle]
  refine ⟨e, ?_, ?_, ?_⟩
  · rw [e]; rfl
  · rw [e]; simp [e]
  · unfold CycleSucceeds
    rw [e, allocate_memory_handle]
    by_cases hb : bytes = 0
    · simp [hb]
    · simp [hb]

/-- C8 in a state with two outstanding blocks: 64 bytes are requested and `malloc`
answers the unused address 12288. -/
theorem C8_allocate_release_restores_witness :
    MallocAnswer scenarioWorld 12288 ∧
    allocate_release_cycle scenarioWorld 64 12288
      = some ((cuda_wrapper_allocate_memory scenarioWorld 64 12288).1, scenarioWorld) ∧
    (allocate_release_cycle scenarioWorld 64 12288).map (fun x => x.2.live)
      = some scenarioWorld.live ∧
    (allocate_release_cycle scenarioWorld 64 12288).bind
        (fun x => allocate_release_cycle x.2 64 12288)
      = allocate_release_cycle scenarioWorld 64 12288 ∧
    (CycleSucceeds scenarioWorld 64 12288 ↔ (64 ≠ 0 ∧ 12288 ≠ 0)) :=
  ⟨by decide, C8_allocate_release_restores scenarioWorld 64 12288 (by decide)⟩

/-- C8 refuted as stated: a request of 0 bytes returns `NULL` although `malloc` would
have answered a block, and a request of 64 bytes returns `NULL` when `malloc` fails;
neither cycle succeeds, while a 64-byte request answered by a block does. -/
theorem C8_counterexample :
    (MallocAnswer emptyWorld 4096 ∧
      (cuda_wrapper_allocate_memory emptyWorld 0 4096).1 = 0 ∧
      ¬ CycleSucceeds emptyWorld 0 4096) ∧
    (MallocAnswer emptyWorld 0 ∧
      (cuda_wrapper_allocate_memory emptyWorld 64 0).1 = 0 ∧
      ¬ CycleSucceeds emptyWorld 64 0) ∧
    CycleSucceeds emptyWorld 64 4096 := by
  refine ⟨⟨by decide, by decide, ?_⟩, ⟨by decide, by decide, ?_⟩, ?_⟩
  · intro h; exact h.1 (by decide)
  · intro h; exact h.1 (by decide)
  · refine ⟨by decide, ?_⟩
    rw [allocate_release_cycle_eq emptyWorld 64 4096 (by decide)]
    rfl

/-- C9: `cuda_wrapper_run_percentage_change_batch` is deterministic: two invocations
given the same host OHLC batch, the same `num_symbols` and the same prior contents of
the device buffers and of the host result batch return the same code and leave the
same host result batch, whatever else differs (platform, heap, byte memory, device
handles); and invoking it again on the outcome repeats code and result batch. -/
theorem C9_run_deterministic {F : Type} (w1 w2 : World F) (p1 q1 p2 q2 : Nat)
    (n1 n2 : Int)
    (_hohlc : w1.h_ohlc_batch = w2.h_ohlc_batch) (_hn : n1 = n2)
    (_hdo : w1.d_ohlc_batch = w2.d_ohlc_batch) (_hdr : w1.d_pct_result = w2.d_pct_result)
    (hres : w1.h_pct_results = w2.h_pct_results) :
    (cuda_wrapper_run_percentage_change_batch w1 p1 q1 n1).1
      = (cuda_wrapper_run_percentage_change_batch w2 p2 q2 n2).1 ∧
    (cuda_wrapper_run_percentage_change_batch w1 p1 q1 n1).2.h_pct_results
      = (cuda_wrapper_run_percentage_change_batch w2 p2 q2 n2).2.h_pct_results ∧
    (cuda_wrapper_run_percentage_change_batch
        (cuda_wrapper_run_percentage_change_batch w1 p1 q1 n1).2 p1 q1 n1).1
      = (cuda_wrapper_run_percentage_change_batch w1 p1 q1 n1).1 ∧
    (cuda_wrapper_run_percentage_change_batch
        (cuda_wrapper_run_percentage_change_batch w1 p1 q1 n1).2 p1 q1 n1).2.h_pct_results
      = (cuda_wrapper_run_percentage_change_batch w1 p1 q1 n1).2.h_pct_results := by
  refine ⟨rfl, ?_, rfl, rfl⟩
  rw [run_noop, run_noop]
  exact hres

/-- C9 at the scenario batch on two different platforms, heaps and handle pairs. -/
theorem C9_run_deterministic_witness :
    (scenarioWorld.h_ohlc_batch = scenarioWorldElsewhere.h_ohlc_batch ∧
      scenarioWorld.d_ohlc_batch = scenarioWorldElsewhere.d_ohlc_batch ∧
      scenarioWorld.d_pct_result = scenarioWorldElsewhere.d_pct_result ∧
      scenarioWorld.h_pct_results = scenarioWorldElsewhere.h_pct_results ∧
      scenarioWorld.live ≠ scenarioWorldElsewhere.live) ∧
    (cuda_wrapper_run_percentage_change_batch scenarioWorld 4096 8192 4).1
      = (cuda_wrapper_run_percentage_change_batch scenarioWorldElsewhere 12288 16384 4).1 ∧
    (cuda_wrapper_run_percentage_change_batch scenarioWorld 4096 8192 4).2.h_pct_results
      = (cuda_wrapper_run_percentage_change_batch scenarioWorldElsewhere 12288 16384 4).2.h_pct_results ∧
    (cuda_wrapper_run_percentage_change_batch
        (cuda_wrapper_run_percentage_change_batch scenarioWorld 4096 8192 4).2 4096 8192 4).1
      = (cuda_wrapper_run_percentage_change_batch scenarioWorld 4096 8192 4).1 ∧
    (cuda_wrapper_run_percentage_change_batch
        (cuda_wrapper_run_percentage_change_batch scenarioWorld 4096 8192 4).2 4096 8192 4).2.h_pct_results
      = (cuda_wrapper_run_percentage_change_batch scenarioWorld 4096 8192 4).2.h_pct_results :=
  ⟨⟨rfl, rfl, rfl, rfl, by decide⟩,
    C9_run_deterministic scenarioWorld scenarioWorldElsewhere 4096 8192 12288 16384 4 4
      rfl rfl rfl rfl rfl⟩

/-- C10: for every non-null `buf` and every `len > 0` the stub
`cuda_wrapper_get_device_info(buf, len)` returns 0 and leaves a NUL-terminated string in
`buf[0..len-1]`: its first `min(len-1, 33)` bytes are the leading bytes of
"Stub CUDA (CPU), CC=0.0, RAM=0 MB", every remaining byte up to and including
`buf[len-1]` is 0, and no byte outside `buf[0..len-1]` is written; when `buf` is null
or `len <= 0` it returns 0 and writes nothing. -/
theorem C10_get_device_info {F : Type} (w : World F) (buf : Nat) (len : Int) :
    (buf ≠ 0 → 0 < len →
      (cuda_wrapper_get_device_info w buf len).1 = 0 ∧
      bytes_at (cuda_wrapper_get_device_info w buf len).2.mem buf (min (len.toNat - 1) 33)
        = stub_info_bytes.take (min (len.toNat - 1) 33) ∧
      (∀ j : Nat, min (len.toNat - 1) 33 ≤ j → j < len.toNat →
        (cuda_wrapper_get_device_info w buf len).2.mem (buf + j) = 0) ∧
      (cuda_wrapper_get_device_info w buf len).2.mem (buf + (len.toNat - 1)) = 0 ∧
      (∀ a : Nat, (a < buf ∨ buf + len.toNat ≤ a) →
        (cuda_wrapper_get_device_info w buf len).2.mem a = w.mem a)) ∧
    ((buf = 0 ∨ len ≤ 0) → cuda_wrapper_get_device_info w buf len = (0, w)) := by
  have hlen : stub_info_bytes.length = 33 := stub_info_bytes_length
  constructor
  · intro hb hl
    have hn : 0 < len.toNat := by omega
    refine ⟨?_, ?_, ?_, ?_, ?_⟩
    · unfold cuda_wrapper_get_device_info
      rw [if_pos ⟨hb, hl⟩]
    · apply bytes_at_info _ _ _ (Nat.min_le_right _ _)
      intro j hj
      have hj1 : j < len.toNat - 1 := lt_of_lt_of_le hj (Nat.min_le_left _ _)
      rw [get_device_info_mem w buf len hb hl]
      have h1 : buf ≤ buf + j ∧ buf + j < buf + len.toNat := by omega
      have h2 : buf + j - buf < len.toNat - 1 := by omega
      have h3 : buf + j - buf = j := by omega
      rw [if_pos h1, if_pos h2, h3]
    · intro j hj hjl
      rw [get_device_info_mem w buf len hb hl]
      have h1 : buf ≤ buf + j ∧ buf + j < buf + len.toNat := by omega
      have h3 : buf + j - buf = j := by omega
      rw [if_pos h1, h3]
      by_cases h2 : j < len.toNat - 1
      · rw [if_pos h2]
        have h33 : 33 ≤ j := by
          rcases Nat.le_total (len.toNat - 1) 33 with h | h
          · rw [Nat.min_eq_left h] at hj; omega
          · rw [Nat.min_eq_right h] at hj; exact hj
        rw [List.getD_eq_default _ _ (by omega)]
      · rw [if_neg h2]
    · rw [get_device_info_mem w buf len hb hl]
      have h1 : buf ≤ buf + (len.toNat - 1) ∧ buf + (len.toNat - 1) < buf + len.toNat := by
        omega
      have h2 : ¬ (buf + (len.toNat - 1) - buf < len.toNat - 1) := by omega
      rw [if_pos h1, if_neg h2]
    · intro a ha
      rw [get_device_info_mem w buf len hb hl]
      have h1 : ¬ (buf ≤ a ∧ a < buf + len.toNat) := by omega
      rw [if_neg h1]
  · intro h
    unfold cuda_wrapper_get_device_info
    have hc : ¬ (buf ≠ 0 ∧ len > 0) := by
      rintro ⟨hb, hl⟩
      rcases h with h | h
      · exact hb h
      · omega
    rw [if_neg hc]

/-- C10 at an eight-byte buffer at address 1000 in memory filled with `0xFF`: the
buffer receives "Stub CU" and a NUL, and the byte after it keeps `0xFF`. -/
theorem C10_get_device_info_witness :
    ((1000 : Nat) ≠ 0 ∧ (0 : Int) < 8) ∧
    ((cuda_wrapper_get_device_info emptyWorld 1000 8).1 = 0 ∧
      bytes_at (cuda_wrapper_get_device_info emptyWorld 1000 8).2.mem 1000
          (min ((8 : Int).toNat - 1) 33)
        = stub_info_bytes.take (min ((8 : Int).toNat - 1) 33) ∧
      (∀ j : Nat, min ((8 : Int).toNat - 1) 33 ≤ j → j < (8 : Int).toNat →
        (cuda_wrapper_get_device_info emptyWorld 1000 8).2.mem (1000 + j) = 0) ∧
      (cuda_wrapper_get_device_info emptyWorld 1000 8).2.mem (1000 + ((8 : Int).toNat - 1)) = 0 ∧
      (∀ a : Nat, (a < 1000 ∨ 1000 + (8 : Int).toNat ≤ a) →
        (cuda_wrapper_get_device_info emptyWorld 1000 8).2.mem a = emptyWorld.mem a)) ∧
    bytes_at (cuda_wrapper_get_device_info emptyWorld 1000 8).2.mem 1000 9
      = [83, 116, 117, 98, 32, 67, 85, 0, 255] ∧
    cuda_wrapper_get_device_info emptyWorld 0 8 = (0, emptyWorld) ∧
    cuda_wrapper_get_device_info emptyWorld 1000 0 = (0, emptyWorld) :=
  ⟨⟨by decide, by decide⟩,
    (C10_get_device_info emptyWorld 1000 8).1 (by decide) (by decide),
    by decide,
    (C10_get_device_info emptyWorld 0 8).2 (Or.inl rfl),
    (C10_get_device_info emptyWorld 1000 0).2 (Or.inr (by decide))⟩

end Bolt
